import Mathlib

/-!
Verification of the postmarks ActivityPub federation core: a shallow
embedding of the activitypub data-management module and the
`/u/:name` route handlers, with theorems checking the specified
behaviour of note construction, HTTP-signature delivery, broadcast
filtering, collection rendering and the message ledger.

Conventions of the embedding:
* JS strings become `String`, arrays become `List`, objects become
  structures; a possibly-`undefined`/`null` value becomes `Option`.
* Randomness (`crypto.randomBytes`) is passed in as an explicit list of
  byte values; clock reads (`new Date`) are passed in as the rendered
  date string.
* The SQLite tables are lists of row structures in insertion order;
  `select ... limit 1` takes the head, `select` without `limit` filters.
* Hashing, RSA signing and the network are abstracted as function
  parameters; signing may fail (`Except`), mirroring a `sign()` call
  that can throw.
-/

namespace Postmarks

/-- Hex digit characters produced by `Buffer.toString("hex")` (lowercase). -/
def isLowerHexDigit (c : Char) : Bool :=
  c.isDigit || ('a' ≤ c && c ≤ 'f')

/-- The two lowercase hex characters of one byte. -/
def byteToHexChars (b : Nat) : List Char :=
  [Nat.digitChar (b / 16), Nat.digitChar (b % 16)]

/-- `Buffer.toString("hex")`: each byte rendered as two lowercase hex chars. -/
def bytesToHex (bs : List Nat) : String :=
  String.mk (bs.foldr (fun b acc => byteToHexChars b ++ acc) [])

/-- JS `String.prototype.replace` with a string pattern: replaces only the
first occurrence of `pat` (an empty pattern matches at position 0). -/
def listReplaceFirst : List Char → List Char → List Char → List Char
  | [], pat, repl => if pat = [] then repl else []
  | c :: rest, pat, repl =>
    if pat.isPrefixOf (c :: rest) then repl ++ (c :: rest).drop pat.length
    else c :: listReplaceFirst rest pat repl

def jsReplaceFirst (s pat repl : String) : String :=
  String.mk (listReplaceFirst s.data pat.data repl.data)

/-- Substring containment, as used by SQL `LIKE '%x%'` and JS `includes`. -/
def listContainsSub : List Char → List Char → Bool
  | [], pat => pat = []
  | c :: rest, pat => pat.isPrefixOf (c :: rest) || listContainsSub rest pat

def strContainsSub (s pat : String) : Bool :=
  listContainsSub s.data pat.data

/-- JS `String.prototype.split(sep)` for a one-character separator (every
`split` in the source uses `" "`, `"\n"` or `"@"`): the segments between
occurrences of the separator, as character lists. -/
def splitOnChar (sep : Char) : List Char → List (List Char)
  | [] => [[]]
  | c :: rest =>
    if c = sep then [] :: splitOnChar sep rest
    else
      match splitOnChar sep rest with
      | [] => [[c]]
      | seg :: segs => (c :: seg) :: segs

def jsSplit (s : String) (sep : Char) : List String :=
  (splitOnChar sep s.data).map String.mk

/-- Modelled from the spec: `replaceEmptyText` from the util module (the
util module is not among the provided sources) — "embedding the
bookmark's title (falling back to the URL text if title is blank)". -/
def replaceEmptyText (text fallback : String) : String :=
  if text.trim = "" then fallback else text

/-- Bookmark record `{id, url, title, description, tags}`; `description`
and `tags` may be absent. -/
structure Bookmark where
  id : Nat
  url : String
  title : String
  description : Option String
  tags : Option String
  deriving Repr, DecidableEq

/-- One `{type: "Hashtag", href, name}` entry of a Note's `tag` array. -/
structure Hashtag where
  type : String
  href : String
  name : String
  deriving Repr, DecidableEq

/-- The `Note` object built by `createNoteObject`. -/
structure Note where
  id : String
  type : String
  published : String
  attributedTo : String
  content : String
  «to» : List String
  tag : List Hashtag
  deriving Repr, DecidableEq

/-- `createNoteObject(bookmark, account, domain)`; `noteRand` stands for
the `crypto.randomBytes(16)` draw and `published` for
`new Date().toISOString()`. -/
def createNoteObject (bookmark : Bookmark) (account domain : String)
    (noteRand : List Nat) (published : String) : Note :=
  let guidNote := bytesToHex noteRand
  let _linkedTags :=
    (bookmark.tags.map fun t =>
      String.intercalate " " ((jsSplit t ' ').map fun tag =>
        "<a href=\"https://" ++ domain ++ "/tagged/" ++ tag.drop 1 ++
          "\" class=\"mention hashtag\" rel=\"tag\">" ++ tag ++ "</a>"))
  { id := "https://" ++ domain ++ "/m/" ++ guidNote
    type := "Note"
    published := published
    attributedTo := "https://" ++ domain ++ "/u/" ++ account
    content :=
      "<strong><a href=\"" ++ bookmark.url ++
        "\" rel=\"nofollow noopener noreferrer\" target=\"_blank\">" ++
        replaceEmptyText bookmark.title bookmark.url ++
        "</a></strong><br/>" ++
        (match bookmark.description with
         | none => ""
         | some d => jsReplaceFirst d.trim "\n" "<br/>")
    «to» := ["https://" ++ domain ++ "/u/" ++ account ++ "/followers/",
             "https://www.w3.org/ns/activitystreams#Public"]
    tag :=
      match bookmark.tags with
      | none => []
      | some t =>
        (jsSplit t ' ').map fun tag =>
          { type := "Hashtag"
            href := "https://" ++ domain ++ "/tagged/" ++ tag.drop 1
            name := tag } }

/-! ### JSON values

The `messages.message` column stores `JSON.stringify` output; the code
re-parses it in `createUnfollowMessage`. The embedding keeps the parsed
form in the row and re-serializes (`stringifyJson`) where the code treats
the column as text (the `LIKE '%...%'` query of `findMessage`), so that
`JSON.parse(stored text)` is the identity on the structured value. -/

mutual

inductive Json where
  | null
  | bool (b : Bool)
  | num (n : Int)
  | str (s : String)
  | arr (elems : JsonList)
  | obj (fields : JsonFields)

inductive JsonList where
  | nil
  | cons (hd : Json) (tl : JsonList)

inductive JsonFields where
  | nil
  | cons (key : String) (val : Json) (tl : JsonFields)

end

def JsonList.ofList : List Json → JsonList
  | [] => .nil
  | x :: xs => .cons x (JsonList.ofList xs)

def JsonFields.ofList : List (String × Json) → JsonFields
  | [] => .nil
  | (k, v) :: xs => .cons k v (JsonFields.ofList xs)

/-- `JSON.stringify` escaping for one character of a string. -/
def escapeJsonChar (c : Char) : List Char :=
  if c = '"' then ['\\', '"']
  else if c = '\\' then ['\\', '\\']
  else if c = '\n' then ['\\', 'n']
  else if c = '\r' then ['\\', 'r']
  else if c = '\t' then ['\\', 't']
  else if c = '\x08' then ['\\', 'b']
  else if c = '\x0c' then ['\\', 'f']
  else if c.toNat < 32 then '\\' :: 'u' :: '0' :: '0' :: byteToHexChars c.toNat
  else [c]

def escapeJsonString (s : String) : String :=
  String.mk (s.data.foldr (fun c acc => escapeJsonChar c ++ acc) [])

/-! `stringifyJson` is `JSON.stringify`, with object fields in insertion
order (comma-joined elements and `"key":value` pairs). -/
mutual

def stringifyJson : Json → String
  | .null => "null"
  | .bool b => if b then "true" else "false"
  | .num n => toString n
  | .str s => "\"" ++ escapeJsonString s ++ "\""
  | .arr l => "[" ++ stringifyArr l ++ "]"
  | .obj fs => "\x7b" ++ stringifyFields fs ++ "\x7d"

def stringifyArr : JsonList → String
  | .nil => ""
  | .cons x .nil => stringifyJson x
  | .cons x (.cons y tl) => stringifyJson x ++ "," ++ stringifyArr (.cons y tl)

def stringifyFields : JsonFields → String
  | .nil => ""
  | .cons k v .nil => "\"" ++ escapeJsonString k ++ "\":" ++ stringifyJson v
  | .cons k v (.cons k2 v2 tl) =>
    "\"" ++ escapeJsonString k ++ "\":" ++ stringifyJson v ++ "," ++
      stringifyFields (.cons k2 v2 tl)

end

def lookupField : JsonFields → String → Option Json
  | .nil, _ => none
  | .cons k v rest, key => if k = key then some v else lookupField rest key

/-- Property access `parsed.key` when the code expects a string field;
non-objects and non-string fields yield no string (JS `undefined`). -/
def Json.getStr (j : Json) (key : String) : Option String :=
  match j with
  | .obj fs =>
    match lookupField fs key with
    | some (.str s) => some s
    | _ => none
  | _ => none

/-! ### The activitypub database -/

/-- A row of the `messages` table: `(guid TEXT PRIMARY KEY, message TEXT,
bookmark_id INTEGER)`; `bookmark_id` is null for Follow messages. -/
structure MessageRow where
  guid : String
  bookmark_id : Option Nat
  message : Json

/-- A row of the `permissions` table (`bookmark_id = 0` is the global
record); `allowed`/`blocked` are nullable newline-separated lists. -/
structure PermRow where
  bookmark_id : Nat
  allowed : Option String
  blocked : Option String

/-- The single-account activitypub store. `followers` is the parsed value
of the `accounts.followers` column: `none` models a SQL `NULL` (which
`getFollowers` surfaces as JS `null`). -/
structure ApDb where
  followers : Option (List String)
  messages : List MessageRow
  permissions : List PermRow

/-- `getFollowers`: `select followers from accounts limit 1`. -/
def ApDb.getFollowers (db : ApDb) : Option (List String) := db.followers

/-- `getGuidForBookmarkId`: `select guid from messages where bookmark_id = ?`. -/
def ApDb.getGuidForBookmarkId (db : ApDb) (id : Nat) : Option String :=
  (db.messages.find? (fun r => r.bookmark_id == some id)).map (·.guid)

/-- `findMessageGuid`: the same query as `getGuidForBookmarkId`. -/
def ApDb.findMessageGuid (db : ApDb) (bookmarkId : Nat) : Option String :=
  (db.messages.find? (fun r => r.bookmark_id == some bookmarkId)).map (·.guid)

/-- `deleteMessage`: `delete from messages where guid = ?`. A JS
`undefined` guid binds no existing row (`guid` is a non-null primary
key), so nothing is deleted. -/
def ApDb.deleteMessage (db : ApDb) (guid : Option String) : ApDb :=
  match guid with
  | none => db
  | some g => { db with messages := db.messages.filter (fun r => r.guid != g) }

/-- `insertMessage`: `insert or replace into messages(...)`; a replaced
row is re-inserted with a fresh rowid, i.e. at the end. -/
def ApDb.insertMessage (db : ApDb) (guid : String) (bookmarkId : Option Nat)
    (message : Json) : ApDb :=
  { db with
    messages := db.messages.filter (fun r => r.guid != guid) ++
      [{ guid := guid, bookmark_id := bookmarkId, message := message }] }

/-- `getPermissionsForBookmark`: `select * from permissions where bookmark_id = ?`. -/
def ApDb.getPermissionsForBookmark (db : ApDb) (id : Nat) : Option PermRow :=
  db.permissions.find? (fun r => r.bookmark_id == id)

/-- `getGlobalPermissions`: the permissions row with `bookmark_id = 0`. -/
def ApDb.getGlobalPermissions (db : ApDb) : Option PermRow :=
  db.getPermissionsForBookmark 0

/-- ASCII case folding, as applied by SQLite `LIKE` to ASCII letters. -/
def asciiLower (c : Char) : Char :=
  if 'A' ≤ c && c ≤ 'Z' then Char.ofNat (c.toNat + 32) else c

/-- `message LIKE '%object%'` (ASCII case-insensitive containment; a `%`
or `_` inside `object` would act as a wildcard, which no embedded input
exercises and is not modelled). -/
def likeContains (s pat : String) : Bool :=
  listContainsSub (s.data.map asciiLower) (pat.data.map asciiLower)

/-- `findMessage`: `select * from messages where message like '%object%'`. -/
def ApDb.findMessage (db : ApDb) (object : String) : List MessageRow :=
  db.messages.filter (fun r => likeContains (stringifyJson r.message) object)

/-! ### Serialized forms stored in the message ledger -/

def hashtagToJson (h : Hashtag) : Json :=
  .obj (JsonFields.ofList
    [("type", .str h.type), ("href", .str h.href), ("name", .str h.name)])

/-- The JSON object of a Note, with fields in the object-literal order of
`createNoteObject` (the shape `JSON.stringify` serializes for storage). -/
def noteToJson (n : Note) : Json :=
  .obj (JsonFields.ofList
    [("@context", .str "https://www.w3.org/ns/activitystreams"),
     ("id", .str n.id),
     ("type", .str n.type),
     ("published", .str n.published),
     ("attributedTo", .str n.attributedTo),
     ("content", .str n.content),
     ("to", .arr (JsonList.ofList (n.«to».map Json.str))),
     ("tag", .arr (JsonList.ofList (n.tag.map hashtagToJson)))])

/-- `getGuidFromPermalink`: first match of `/(?:\/m\/)([a-zA-Z0-9+\/]+)/`.
Returns `none` when the regex does not match (where the JS `match(...)[1]`
would throw; every embedded caller passes an id of the form
`https://domain/m/guid`, so that path is unreachable here). -/
def isGuidChar (c : Char) : Bool :=
  c.isAlphanum || c = '+' || c = '/'

def guidFromPermalinkAux : List Char → Option (List Char)
  | [] => none
  | c :: rest =>
    if ['/', 'm', '/'].isPrefixOf (c :: rest) then
      let cap := ((c :: rest).drop 3).takeWhile isGuidChar
      if cap = [] then guidFromPermalinkAux rest else some cap
    else guidFromPermalinkAux rest

def getGuidFromPermalink (s : String) : Option String :=
  (guidFromPermalinkAux s.data).map String.mk

/-- The `Create` activity built by `createMessage`. -/
structure CreateMessage where
  context : List String
  id : String
  type : String
  actor : String
  «to» : List String
  object : Note

/-- `createMessage(noteObject, bookmarkId, account, domain, db)`:
builds the Create wrapper and, as a side effect, inserts the Note
(keyed by the guid parsed back out of its permalink) into the ledger.
`createRand` stands for the `crypto.randomBytes(16)` draw. -/
def createMessage (noteObject : Note) (bookmarkId : Nat)
    (account domain : String) (db : ApDb) (createRand : List Nat) :
    ApDb × CreateMessage :=
  let guidCreate := bytesToHex createRand
  let msg : CreateMessage :=
    { context := ["https://www.w3.org/ns/activitystreams",
                  "https://w3id.org/security/v1"]
      id := "https://" ++ domain ++ "/m/" ++ guidCreate
      type := "Create"
      actor := "https://" ++ domain ++ "/u/" ++ account
      «to» := ["https://" ++ domain ++ "/u/" ++ account ++ "/followers/",
               "https://www.w3.org/ns/activitystreams#Public"]
      object := noteObject }
  let db2 := db.insertMessage ((getGuidFromPermalink noteObject.id).getD "")
    (some bookmarkId) (noteToJson noteObject)
  (db2, msg)

/-- The `object` of an update wrapper: a full Note on first publish, or
the existing Note's permalink URI. -/
inductive NoteOrUri where
  | noteObj (n : Note)
  | uri (s : String)

/-- The `Create`-typed wrapper built by `createUpdateMessage` (the source
deliberately uses type `Create` instead of `Update`). -/
structure UpdateMessage where
  context : List String
  summary : String
  type : String
  actor : String
  object : NoteOrUri

/-- `createUpdateMessage(bookmark, account, domain, db)`; when no guid is
on record for the bookmark it synthesizes a fresh Note and persists it via
`createMessage` (whose returned wrapper is discarded). -/
def createUpdateMessage (bookmark : Bookmark) (account domain : String)
    (db : ApDb) (noteRand createRand : List Nat) (published : String) :
    ApDb × UpdateMessage :=
  let base : NoteOrUri → UpdateMessage := fun obj =>
    { context := ["https://www.w3.org/ns/activitystreams",
                  "https://w3id.org/security/v1"]
      summary := account ++ " updated the bookmark"
      type := "Create"
      actor := "https://" ++ domain ++ "/u/" ++ account
      object := obj }
  match db.getGuidForBookmarkId bookmark.id with
  | none =>
    let note := createNoteObject bookmark account domain noteRand published
    let r := createMessage note bookmark.id account domain db createRand
    (r.1, base (.noteObj note))
  | some guid =>
    (db, base (.uri ("https://" ++ domain ++ "/m/" ++ guid)))

structure Tombstone where
  type : String
  id : String

/-- The `Delete` activity built by `createDeleteMessage`. -/
structure DeleteMessage where
  context : List String
  id : String
  type : String
  actor : String
  «to» : List String
  object : Tombstone

/-- `createDeleteMessage(bookmark, account, domain, db)`: looks up the
guid (possibly `undefined`), always deletes by it and always builds the
Delete activity; a JS template literal renders an `undefined` guid as the
literal text `"undefined"`. -/
def createDeleteMessage (bookmark : Bookmark) (account domain : String)
    (db : ApDb) : ApDb × DeleteMessage :=
  let guid := db.findMessageGuid bookmark.id
  let db2 := db.deleteMessage guid
  let guidStr := match guid with
    | some g => g
    | none => "undefined"
  (db2,
   { context := ["https://www.w3.org/ns/activitystreams",
                 "https://w3id.org/security/v1"]
     id := "https://" ++ domain ++ "/m/" ++ guidStr
     type := "Delete"
     actor := "https://" ++ domain ++ "/u/" ++ account
     «to» := ["https://" ++ domain ++ "/u/" ++ account ++ "/followers/",
              "https://www.w3.org/ns/activitystreams#Public"]
     object := { type := "Tombstone", id := "https://" ++ domain ++ "/m/" ++ guidStr } })

/-- The `Follow` activity built by `createFollowMessage`. -/
structure FollowMessage where
  context : String
  id : String
  type : String
  actor : String
  object : String

def followToJson (m : FollowMessage) : Json :=
  .obj (JsonFields.ofList
    [("@context", .str m.context), ("id", .str m.id), ("type", .str m.type),
     ("actor", .str m.actor), ("object", .str m.object)])

/-- `createFollowMessage(account, domain, target, db)`; `rand` stands for
the `crypto.randomBytes(16)` draw that becomes the bare-guid id. -/
def createFollowMessage (account domain target : String) (db : ApDb)
    (rand : List Nat) : ApDb × FollowMessage :=
  let guid := bytesToHex rand
  let m : FollowMessage :=
    { context := "https://www.w3.org/ns/activitystreams"
      id := guid
      type := "Follow"
      actor := "https://" ++ domain ++ "/u/" ++ account
      object := target }
  (db.insertMessage guid none (followToJson m), m)

/-- A JS value as needed for the `object` field of the Undo activity:
`followMessages.slice(-1)` is an Array, and reading `.message` off an
Array yields `undefined`. -/
inductive JsVal where
  | undef
  | str (s : String)
  deriving DecidableEq

/-- JS property access `a.message` where `a` is an Array value: arrays
have no `message` property, so the access yields `undefined`. -/
def arrayMessageProp (_a : List MessageRow) : JsVal :=
  JsVal.undef

/-- JS `Array.prototype.slice(n)` (one negative or non-negative start
argument, to the end of the array). -/
def jsSlice {α : Type} (l : List α) (n : Int) : List α :=
  if n < 0 then l.drop (Int.toNat (l.length + n)) else l.drop (Int.toNat n)

/-- The `Undo` activity built by `createUnfollowMessage`. -/
structure UndoMessage where
  context : String
  type : String
  id : String
  actor : String
  object : JsVal

/-- `createUnfollowMessage(account, domain, target, db)`: fetches the
rows whose serialized message contains the target, keeps those parsing to
a `Follow` of the target, and if any remain builds the Undo (note: the
source reads `.message` off the array returned by `slice(-1)`, and its
`actor` template lacks the `https://` prefix); otherwise logs and
returns `null` (`none`). -/
def createUnfollowMessage (account domain target : String) (db : ApDb)
    (undoRand : List Nat) : Option UndoMessage :=
  let undoGuid := bytesToHex undoRand
  let messageRows := db.findMessage target
  let followMessages := messageRows.filter (fun row =>
    row.message.getStr "type" == some "Follow" &&
      row.message.getStr "object" == some target)
  if followMessages.length > 0 then
    some { context := "https://www.w3.org/ns/activitystreams"
           type := "Undo"
           id := undoGuid
           actor := domain ++ "/u/" ++ account
           object := arrayMessageProp (jsSlice followMessages (-1)) }
  else none

/-! ### Broadcast -/

/-- Test of the regex `/^@([^@]+)@(.+)$/`: a leading `@`, one or more
non-`@` characters, another `@`, then at least one further character. -/
def matchesHandlePattern (s : String) : Bool :=
  match s.data with
  | '@' :: rest =>
    match rest.dropWhile (fun c => c != '@') with
    | '@' :: d => !(rest.takeWhile (fun c => c != '@')).isEmpty && !d.isEmpty
    | _ => false
  | _ => false

/-- The blocklist expression of `broadcastMessage`:
`bookmarkPermissions?.blocked?.split("\n")
  ?.concat(globalPermissions?.blocked?.split("\n"))
  .filter((x) => !x?.match(...)) || []`.
If the per-bookmark `blocked` value is absent the whole optional chain
short-circuits to `undefined` and `|| []` yields the empty list. A
`concat(undefined)` appends a single `undefined` element (`none`). The
filter keeps exactly the entries that do NOT match `@user@domain` (and
keeps `undefined`, since `!undefined?.match` is `!undefined`, i.e. true). -/
def buildBlocklist (bookmarkBlocked globalBlocked : Option String) :
    List (Option String) :=
  match bookmarkBlocked with
  | none => []
  | some b =>
    let l1 : List (Option String) := (jsSplit b '\n').map some
    let l2 := l1 ++
      (match globalBlocked with
       | none => [none]
       | some g => (jsSplit g '\n').map some)
    l2.filter (fun x =>
      match x with
      | none => true
      | some s => !(matchesHandlePattern s))

/-- JS `Array.prototype.forEach` evaluates the callback for its side
effects and always returns `undefined` (`none`). -/
def jsForEachResult {α β : Type} (l : List α) (f : α → β) : Option (List β) :=
  let _ := l.map f
  none

/-- JS `!` applied to the short-circuiting value of `matches?.some(...)`:
`!undefined` is `true`. -/
def jsNotOfOption : Option Bool → Bool
  | none => true
  | some b => !b

/-- The activity handed to delivery, tagged by the dispatched action. -/
inductive OutMessage where
  | createM (m : CreateMessage)
  | updateM (m : UpdateMessage)
  | deleteM (m : DeleteMessage)

def strListToJson (l : List String) : Json :=
  .arr (JsonList.ofList (l.map Json.str))

/-- The JSON shape `JSON.stringify` sees for a Create wrapper, fields in
the object-literal order of `createMessage`. -/
def createMessageToJson (m : CreateMessage) : Json :=
  .obj (JsonFields.ofList
    [("@context", strListToJson m.context),
     ("id", .str m.id),
     ("type", .str m.type),
     ("actor", .str m.actor),
     ("to", strListToJson m.«to»),
     ("object", noteToJson m.object)])

/-- The JSON shape of an update wrapper, fields in the object-literal
order of `createUpdateMessage`. -/
def updateMessageToJson (m : UpdateMessage) : Json :=
  .obj (JsonFields.ofList
    [("@context", strListToJson m.context),
     ("summary", .str m.summary),
     ("type", .str m.type),
     ("actor", .str m.actor),
     ("object",
      match m.object with
      | .noteObj n => noteToJson n
      | .uri s => .str s)])

/-- The JSON shape of a Delete activity, fields in the object-literal
order of `createDeleteMessage`. -/
def deleteMessageToJson (m : DeleteMessage) : Json :=
  .obj (JsonFields.ofList
    [("@context", strListToJson m.context),
     ("id", .str m.id),
     ("type", .str m.type),
     ("actor", .str m.actor),
     ("to", strListToJson m.«to»),
     ("object", .obj (JsonFields.ofList
        [("type", .str m.object.type), ("id", .str m.object.id)]))])

def outMessageToJson : OutMessage → Json
  | .createM m => createMessageToJson m
  | .updateM m => updateMessageToJson m
  | .deleteM m => deleteMessageToJson m

/-- The unconditional log line emitted after a successful action
dispatch, before the delivery loop:
`sending this message to all followers: ${JSON.stringify(message)}`. -/
def sendingLog (m : OutMessage) : String :=
  "sending this message to all followers: " ++ stringifyJson (outMessageToJson m)

/-- `broadcastMessage(bookmark, action, db, account, domain)`.
Returns `(updated store, built activity, inbox URLs posted to, logs)`.
`disabled` is `actorInfo.disabled`; `amu` is `actorMatchesUsername` from
the util module (its value is irrelevant: the source computes
`followers.filter(...)` but discards the result, and the filter predicate
reads the result of `forEach`, which is always `undefined`, so deliveries
iterate the original `followers` list unchanged). On every successful
dispatch the `sending this message to all followers` line is logged
before the delivery loop, whether or not any follower remains. -/
def broadcastMessage (bookmark : Bookmark) (action : String) (db : ApDb)
    (account domain : String) (disabled : Bool)
    (amu : String → Option String → Bool)
    (noteRand createRand : List Nat) (published : String) :
    ApDb × Option OutMessage × List String × List String :=
  if disabled then (db, none, [], [])
  else
    match db.getFollowers with
    | none => (db, none, [], ["No followers for account " ++ account ++ "@" ++ domain])
    | some followers =>
      let bookmarkPermissions := db.getPermissionsForBookmark bookmark.id
      let globalPermissions := db.getGlobalPermissions
      let blocklist := buildBlocklist (bookmarkPermissions.bind (·.blocked))
        (globalPermissions.bind (·.blocked))
      let _filtered := followers.filter (fun actor =>
        let matchRes := jsForEachResult blocklist (fun username => amu actor username)
        jsNotOfOption (matchRes.map (fun l => l.any id)))
      let noteObject := createNoteObject bookmark account domain noteRand published
      if action = "create" then
        let r := createMessage noteObject bookmark.id account domain db createRand
        (r.1, some (.createM r.2), followers.map (· ++ "/inbox"),
         [sendingLog (.createM r.2)])
      else if action = "update" then
        let r := createUpdateMessage bookmark account domain db noteRand createRand published
        (r.1, some (.updateM r.2), followers.map (· ++ "/inbox"),
         [sendingLog (.updateM r.2)])
      else if action = "delete" then
        let r := createDeleteMessage bookmark account domain db
        (r.1, some (.deleteM r.2), followers.map (· ++ "/inbox"),
         [sendingLog (.deleteM r.2)])
      else (db, none, [], ["unsupported action!"])

/-! ### signAndSend -/

/-- The outbound POST issued by `signAndSend`, with its headers and body. -/
structure HttpRequest where
  url : String
  method : String
  host : String
  date : String
  digest : String
  signature : String
  contentType : String
  accept : String
  body : String
  deriving DecidableEq

/-- `signAndSend(message, name, domain, db, targetDomain, inbox)`.

`message` is the JSON-serialized activity (the source stringifies the
activity object; the embedding takes the serialized text directly, since
both the digest and the body use exactly `JSON.stringify(message)`).
`sha256b64` abstracts `createHash("sha256")...digest("base64")`;
`rsaSignB64` abstracts `createSign("sha256")...sign(privkey)` followed by
base64, and may fail (a throwing `sign()` call) — that call sits OUTSIDE
the `try` block, so its failure propagates (`Except.error`).
`fetchResult` abstracts the network outcome; the `try/catch` around the
`fetch` means it never affects the returned value.

Returns `.ok none` when no private key is on record (logged, no request
issued), `.ok (some request)` when the POST was issued (whatever the
network outcome), `.error e` when signing threw. -/
def signAndSend (message name domain targetDomain inbox : String)
    (privkey : Option String)
    (sha256b64 : String → String)
    (rsaSignB64 : String → String → Except String String)
    (fetchResult : Except String String)
    (date : String) : Except String (Option HttpRequest) :=
  let inboxFragment := jsReplaceFirst inbox ("https://" ++ targetDomain) ""
  match privkey with
  | none => .ok none
  | some key =>
    let digest := sha256b64 message
    let stringToSign := "(request-target): post " ++ inboxFragment ++
      "\nhost: " ++ targetDomain ++ "\ndate: " ++ date ++
      "\ndigest: SHA-256=" ++ digest
    match rsaSignB64 key stringToSign with
    | .error e => .error e
    | .ok signatureB64 =>
      let header := "keyId=\"https://" ++ domain ++ "/u/" ++ name ++
        "\",algorithm=\"rsa-sha256\",headers=\"(request-target) host date digest\",signature=\"" ++
        signatureB64 ++ "\""
      let _ := fetchResult
      .ok (some { url := inbox
                  method := "POST"
                  host := targetDomain
                  date := date
                  digest := "SHA-256=" ++ digest
                  signature := header
                  contentType := "application/json"
                  accept := "application/json"
                  body := message })

/-- The signing string as the spec words it: "the newline-joined sequence
`(request-target): post {inboxPath}`, `host: {targetDomain}`,
`date: {RFC-1123 timestamp}`, `digest: SHA-256={digest}`". -/
def specSigningString (inboxPath targetDomain date digest : String) : String :=
  String.intercalate "\n"
    ["(request-target): post " ++ inboxPath,
     "host: " ++ targetDomain,
     "date: " ++ date,
     "digest: SHA-256=" ++ digest]

/-- The Signature header as the spec words it:
`keyId="https://{domain}/u/{localActorName}",algorithm="rsa-sha256",headers="(request-target) host date digest",signature="{sig}"`. -/
def specSignatureHeader (domain localActorName sig : String) : String :=
  "keyId=\"https://" ++ domain ++ "/u/" ++ localActorName ++
    "\",algorithm=\"rsa-sha256\",headers=\"(request-target) host date digest\",signature=\"" ++
    sig ++ "\""

/-! ### Route handlers (`src/routes/activitypub/user.js`) -/

/-- A stored actor record, as parsed from the `accounts.actor` column.
`followers`/`outbox` are optional to cover legacy records, which the
actor route patches at read time. -/
structure ActorRecord where
  id : String
  preferredUsername : String
  name : String
  summary : String
  inbox : String
  outbox : Option String
  followers : Option String
  following : Option String
  deriving DecidableEq

/-- A row of the `accounts` table as the routes consume it. -/
structure AccountRow where
  name : String
  actor : ActorRecord

/-- `getActor(name)`: `select actor from accounts limit 1` — the `name`
argument is not used by the query. -/
def getActor (_name : String) (accounts : List AccountRow) : Option ActorRecord :=
  accounts.head?.map (·.actor)

inductive ActorRouteResult where
  | badRequest
  | notFound (body : String)
  | okJson (doc : ActorRecord)
  deriving DecidableEq

/-- The `GET /u/:name` handler. -/
def actorRouteHandler (name domain : String) (accounts : List AccountRow) :
    ActorRouteResult :=
  if name = "" then .badRequest
  else
    let username := name
    let fullName := name ++ "@" ++ domain
    match getActor fullName accounts with
    | none => .notFound ("No actor record found for " ++ fullName ++ ".")
    | some actor =>
      let tempActor := actor
      let tempActor :=
        if tempActor.followers = none then
          { tempActor with
            followers := some ("https://" ++ domain ++ "/u/" ++ username ++ "/followers") }
        else tempActor
      let tempActor :=
        if tempActor.outbox = none then
          { tempActor with
            outbox := some ("https://" ++ domain ++ "/u/" ++ username ++ "/outbox") }
        else tempActor
      .okJson tempActor

/-- An `OrderedCollectionPage` of actor-URI items; `orderedItems = none`
models a JSON `null` (a `NULL` followers column parses to `null`). -/
structure StrCollectionPage where
  type : String
  totalItems : Nat
  partOf : String
  orderedItems : Option (List String)
  id : String
  deriving DecidableEq

structure StrCollection where
  type : String
  totalItems : Nat
  id : String
  first : StrCollectionPage
  deriving DecidableEq

/-- The stored value the route reads: `none` = no account row (JS
`undefined`), `some none` = `NULL` column (JS `null`), `some (some l)` =
stored JSON array. -/
abbrev StoredList := Option (Option (List String))

/-- The `GET /u/:name/followers` handler (for a nonempty `:name`):
`undefined` becomes `[]`, anything else is `JSON.parse`d, and
`followers?.length || 0` supplies both `totalItems` fields. -/
def followersCollection (name domain : String) (followersVal : StoredList) :
    StrCollection :=
  let followers : Option (List String) :=
    match followersVal with
    | none => some []
    | some v => v
  let total := match followers with
    | none => 0
    | some l => l.length
  { type := "OrderedCollection"
    totalItems := total
    id := "https://" ++ domain ++ "/u/" ++ name ++ "/followers"
    first := { type := "OrderedCollectionPage"
               totalItems := total
               partOf := "https://" ++ domain ++ "/u/" ++ name ++ "/followers"
               orderedItems := followers
               id := "https://" ++ domain ++ "/u/" ++ name ++ "/followers?page=1" } }

/-- The `GET /u/:name/following` handler (for a nonempty `:name`):
`getFollowing() || "[]"` turns both `undefined` and `null` into `[]`. -/
def followingCollection (name domain : String) (followingVal : StoredList) :
    StrCollection :=
  let following : List String :=
    match followingVal with
    | some (some l) => l
    | _ => []
  let total := following.length
  { type := "OrderedCollection"
    totalItems := total
    id := "https://" ++ domain ++ "/u/" ++ name ++ "/following"
    first := { type := "OrderedCollectionPage"
               totalItems := total
               partOf := "https://" ++ domain ++ "/u/" ++ name ++ "/following"
               orderedItems := some following
               id := "https://" ++ domain ++ "/u/" ++ name ++ "/following?page=1" } }

/-! ### Outbox route -/

/-- A JS value that is either the raw request-parameter string or the
number `1` supplied by `|| 1`. -/
inductive JsStrOrNum where
  | str (s : String)
  | num (n : Int)

/-- JS `ToNumber` on the strings this route can see: `none` models `NaN`.
(Only trimmed decimal digit strings and the empty string are given a
numeric value; other convertible forms such as signs, decimals or hex
literals do not occur in the modelled requests.) -/
def jsToNumber (s : String) : Option Int :=
  let t := s.trim
  if t = "" then some 0
  else match t.toNat? with
    | some n => some n
    | none => none

/-- Rendering of `${page}` in a template literal. -/
def JsStrOrNum.render : JsStrOrNum → String
  | .str s => s
  | .num n => toString n

/-- JS `page + 1`: string concatenation when `page` is a string,
arithmetic when it is a number. -/
def JsStrOrNum.renderPlusOne : JsStrOrNum → String
  | .str s => s ++ "1"
  | .num n => toString (n + 1)

/-- The outbox `OrderedCollectionPage`. -/
structure OutboxPage where
  type : String
  totalItems : Nat
  partOf : String
  orderedItems : List Note
  id : String
  next : String
  deriving DecidableEq

structure OutboxCollection where
  type : String
  totalItems : Nat
  id : String
  first : OutboxPage
  deriving DecidableEq

inductive OutboxResult where
  | badRequest
  | unspecified
  | ok (c : OutboxCollection)
  deriving DecidableEq

/-- `getBookmarks(limit, offset)` of the external bookmarks store: SQL
`LIMIT ? OFFSET ?` over the stored bookmark list. -/
def getBookmarks (bookmarks : List Bookmark) (limit offset : Nat) : List Bookmark :=
  (bookmarks.drop offset).take limit

/-- The `GET /u/:name/outbox` handler body, over the value of
`req.params.page`. A present page value is a string, so `page < 1`
compares numerically, `(page - 1) * limit` coerces, and `${page + 1}`
concatenates. `.unspecified` covers a `NaN` offset handed to the SQL
driver (unreachable: the route never passes a page parameter, see
`outboxRoute`); `rng i` stands for the `crypto.randomBytes(16)` draw of
the i-th `createNoteObject` call. -/
def outboxHandler (account domain : String) (paramsPage : Option String)
    (bookmarks : List Bookmark) (rng : Nat → List Nat) (published : String) :
    OutboxResult :=
  let page : JsStrOrNum :=
    match paramsPage with
    | some s => if s = "" then .num 1 else .str s
    | none => .num 1
  let pageNum : Option Int :=
    match page with
    | .num n => some n
    | .str s => jsToNumber s
  if (match pageNum with | some n => decide (n < 1) | none => false) then
    .badRequest
  else
    match pageNum with
    | none => .unspecified
    | some n =>
      let limit : Nat := 20
      let offset : Nat := Int.toNat ((n - 1) * 20)
      let totalBookmarkCount := bookmarks.length
      let _totalPages := (totalBookmarkCount + limit - 1) / limit
      let pageBookmarks := getBookmarks bookmarks limit offset
      let messages := pageBookmarks.mapIdx
        (fun i b => createNoteObject b account domain (rng i) published)
      .ok { type := "OrderedCollection"
            totalItems := totalBookmarkCount
            id := "https://" ++ domain ++ "/u/" ++ account ++ "/outbox"
            first := { type := "OrderedCollectionPage"
                       totalItems := messages.length
                       partOf := "https://" ++ domain ++ "/u/" ++ account ++ "/outbox"
                       orderedItems := messages
                       id := "https://" ++ domain ++ "/u/" ++ account ++
                         "/outbox?page=" ++ page.render
                       next := "https://" ++ domain ++ "/u/" ++ account ++
                         "/outbox?page=" ++ page.renderPlusOne } }

/-- The route as declared: `router.get("/:name/outbox", ...)`. Express
puts only the path parameter `name` into `req.params`; a query string
such as `?page=2` lands in `req.query`, which this handler never reads,
so `req.params.page` is always `undefined`. -/
def outboxRoute (name : String) (queryPage : Option String)
    (account domain : String) (bookmarks : List Bookmark)
    (rng : Nat → List Nat) (published : String) : OutboxResult :=
  let _ := name
  let _ := queryPage
  outboxHandler account domain none bookmarks rng published

/-- Modelled from the spec: `actorMatchesUsername` from the util module
(not among the provided sources) — "username/domain match against the
follower's actor URI", the handle being parsed into its last two
`@`-delimited segments as the resolver does. In `broadcastMessage` the
blocklist entries it receives may be `undefined` (`none`). -/
def actorMatchesUsername (actor : String) (username : Option String) : Bool :=
  match username with
  | none => false
  | some u =>
    let segs := jsSplit u '@'
    let dom := segs.getLast?.getD ""
    let usr := segs.dropLast.getLast?.getD ""
    strContainsSub actor dom && strContainsSub actor usr

/-! ### Helper lemmas -/

/-- Projections of an outbox route result (used to state page properties
without spelling out the whole collection). -/
def OutboxResult.topTotal : OutboxResult → Option Nat
  | .ok c => some c.totalItems
  | _ => none

def OutboxResult.firstTotal : OutboxResult → Option Nat
  | .ok c => some c.first.totalItems
  | _ => none

def OutboxResult.firstItemsLength : OutboxResult → Option Nat
  | .ok c => some c.first.orderedItems.length
  | _ => none

def OutboxResult.firstId : OutboxResult → Option String
  | .ok c => some c.first.id
  | _ => none

def OutboxResult.nextLink : OutboxResult → Option String
  | .ok c => some c.first.next
  | _ => none

theorem listReplaceFirst_append (pat s : List Char) :
    listReplaceFirst (pat ++ s) pat [] = s := by
  cases pat with
  | nil =>
    cases s with
    | nil => simp [listReplaceFirst]
    | cons c rest => simp [listReplaceFirst, List.isPrefixOf]
  | cons c pd =>
    show listReplaceFirst (c :: (pd ++ s)) (c :: pd) [] = s
    rw [listReplaceFirst]
    have hp : (c :: pd).isPrefixOf (c :: (pd ++ s)) = true := by
      rw [List.isPrefixOf_iff_prefix]
      exact ⟨s, by simp⟩
    simp [hp]

/-- `inbox.replace("https://" + targetDomain, "")` recovers the inbox
path when the inbox URL is that prefix followed by the path. -/
theorem jsReplaceFirst_append (pat s : String) :
    jsReplaceFirst (pat ++ s) pat "" = s := by
  unfold jsReplaceFirst
  have h : (pat ++ s).data = pat.data ++ s.data := String.data_append pat s
  rw [h]
  show String.mk (listReplaceFirst (pat.data ++ s.data) pat.data "".data) = s
  have h2 : ("" : String).data = [] := rfl
  rw [h2, listReplaceFirst_append]

/-- The spec's newline-joined signing string, flattened. -/
theorem specSigningString_eq (p t d dg : String) : specSigningString p t d dg =
    "(request-target): post " ++ p ++ "\nhost: " ++ t ++ "\ndate: " ++ d ++
      "\ndigest: SHA-256=" ++ dg := by
  unfold specSigningString
  apply String.ext
  simp [String.intercalate, String.intercalate.go, String.data_append]

theorem hexFold_length (bs : List Nat) :
    (bs.foldr (fun b acc => byteToHexChars b ++ acc) []).length = 2 * bs.length := by
  induction bs with
  | nil => rfl
  | cons b rest ih =>
    show (byteToHexChars b ++ rest.foldr (fun b acc => byteToHexChars b ++ acc) []).length = _
    rw [List.length_append, ih]
    simp [byteToHexChars]
    omega

theorem digitChar_hex (n : Nat) (h : n < 16) : isLowerHexDigit (Nat.digitChar n) = true := by
  revert h
  revert n
  decide

theorem hexFold_all (bs : List Nat) (h : ∀ b ∈ bs, b < 256) :
    (bs.foldr (fun b acc => byteToHexChars b ++ acc) []).all isLowerHexDigit = true := by
  induction bs with
  | nil => rfl
  | cons b rest ih =>
    show (byteToHexChars b ++
      rest.foldr (fun b acc => byteToHexChars b ++ acc) []).all isLowerHexDigit = true
    rw [List.all_append]
    have hb := h b (List.mem_cons_self b rest)
    have h1 : b / 16 < 16 := by omega
    have h2 : b % 16 < 16 := Nat.mod_lt _ (by omega)
    simp only [byteToHexChars, List.all_cons, List.all_nil,
      digitChar_hex _ h1, digitChar_hex _ h2, Bool.and_true, Bool.true_and]
    exact ih (fun x hx => h x (List.mem_cons_of_mem _ hx))

/-- The guid minted by `bytesToHex` from a 16-byte draw: 32 chars, all
lowercase hex. -/
theorem bytesToHex_guid (bs : List Nat) (hlen : bs.length = 16)
    (hbyte : ∀ b ∈ bs, b < 256) :
    (bytesToHex bs).length = 32 ∧ (bytesToHex bs).data.all isLowerHexDigit = true := by
  constructor
  · show (bytesToHex bs).data.length = 32
    show (bs.foldr (fun b acc => byteToHexChars b ++ acc) []).length = 32
    rw [hexFold_length, hlen]
  · exact hexFold_all bs hbyte

/-- Projection of the Delete activity id out of a dispatched message. -/
def OutMessage.deleteId : OutMessage → Option String
  | .deleteM d => some d.id
  | _ => none

/-- Projection of the Tombstone id out of a dispatched message. -/
def OutMessage.tombstoneId : OutMessage → Option String
  | .deleteM d => some d.object.id
  | _ => none

/-! ### Concrete inputs for the end-to-end theorems -/

def rand16 : List Nat := List.range 16

/-- Scenario 1's bookmark: `{id:1, url:"http://e.com", title:"E", tags:"#a #b"}`. -/
def bmScenario1 : Bookmark :=
  { id := 1, url := "http://e.com", title := "E", description := none, tags := some "#a #b" }

/-- Scenario 3's store: two followers and the global permission record
written by `setPermissionsForBookmark(0, "", "@bad@evil.example")`. -/
def scenario3Db : ApDb :=
  { followers := some ["https://evil.example/u/bad", "https://good.example/u/x"]
    messages := []
    permissions := [{ bookmark_id := 0, allowed := some "", blocked := some "@bad@evil.example" }] }

/-- A bookmark with no message on record (scenario 4). -/
def bm5 : Bookmark :=
  { id := 5, url := "https://ex.example/page", title := "T", description := none, tags := none }

/-- A store with one follower and an empty message ledger. -/
def deleteDb : ApDb :=
  { followers := some ["https://f.example/u/a"], messages := [], permissions := [] }

def followTarget : String := "https://target.example/u/t"

/-- A persisted Follow of `followTarget`. -/
def storedFollow : FollowMessage :=
  { context := "https://www.w3.org/ns/activitystreams", id := "abc123", type := "Follow"
    actor := "https://mydomain.example/u/alice", object := followTarget }

def unfollowDb : ApDb :=
  { followers := none
    messages := [{ guid := "abc123", bookmark_id := none, message := followToJson storedFollow }]
    permissions := [] }

def emptyDb : ApDb := { followers := none, messages := [], permissions := [] }

def emptyFollowersDb : ApDb := { followers := some [], messages := [], permissions := [] }

/-- 25 stored bookmarks (scenario 2). -/
def bms25 : List Bookmark :=
  (List.range 25).map fun i =>
    { id := i, url := "http://e.com", title := "E", description := none, tags := none }

def sampleActorRecord : ActorRecord :=
  { id := "https://d.example/u/alice", preferredUsername := "alice", name := "Alice"
    summary := "s", inbox := "https://d.example/api/inbox"
    outbox := some "https://d.example/u/alice/outbox"
    followers := some "https://d.example/u/alice/followers"
    following := some "https://d.example/u/alice/following" }

def sampleAccounts : List AccountRow :=
  [{ name := "alice@d.example", actor := sampleActorRecord }]

/-! ### Claim theorems -/

/-- C1: the claim states that every follower matching a well-formed
blocked entry (here `@bad@evil.example`, installed as the global blocked
list per scenario 3) is excluded from a broadcast. The code violates
this: the follower `https://evil.example/u/bad` matches the blocked
handle, yet the broadcast posts to both followers' inboxes in stored
order — `followers.filter(...)` discards its result and its predicate is
constantly true (it negates the `undefined` result of `forEach`). -/
theorem broadcast_reaches_blocked_follower :
    actorMatchesUsername "https://evil.example/u/bad" (some "@bad@evil.example") = true ∧
    (broadcastMessage bmScenario1 "create" scenario3Db "alice" "mydomain.example"
      false actorMatchesUsername rand16 rand16 "2024-01-01T00:00:00.000Z").2.2.1 =
      ["https://evil.example/u/bad/inbox", "https://good.example/u/x/inbox"] :=
  ⟨by decide, rfl⟩

/-- C2: the claim states that a Delete for a bookmark with no stored
message guid produces no outbound activity. The code does leave the
store unmutated, but it still builds a Delete whose guid renders as the
literal text `undefined` and posts it to every follower. -/
theorem delete_without_guid_still_emits :
    (broadcastMessage bm5 "delete" deleteDb "alice" "mydomain.example" false
      actorMatchesUsername rand16 rand16 "2024").1 = deleteDb ∧
    ((broadcastMessage bm5 "delete" deleteDb "alice" "mydomain.example" false
      actorMatchesUsername rand16 rand16 "2024").2.1).bind OutMessage.deleteId =
      some "https://mydomain.example/m/undefined" ∧
    ((broadcastMessage bm5 "delete" deleteDb "alice" "mydomain.example" false
      actorMatchesUsername rand16 rand16 "2024").2.1).bind OutMessage.tombstoneId =
      some "https://mydomain.example/m/undefined" ∧
    (broadcastMessage bm5 "delete" deleteDb "alice" "mydomain.example" false
      actorMatchesUsername rand16 rand16 "2024").2.2.1 = ["https://f.example/u/a/inbox"] :=
  ⟨rfl, rfl, rfl, rfl⟩

/-- C3: the claim states the outbox honors the requested page (page 2 of
25 bookmarks → 5 items, ids ending `?page=2` / `?page=3`). The route is
declared `/:name/outbox`, so `req.params.page` is always undefined and
the handler always serves page 1: 20 items, `first.id` ending `?page=1`
and `next` ending `?page=2`, whatever page the query string requests. -/
theorem outbox_serves_page_one_for_page_two :
    (outboxRoute "alice" (some "2") "alice" "d.example" bms25 (fun _ => rand16)
      "2024").firstItemsLength = some 20 ∧
    (outboxRoute "alice" (some "2") "alice" "d.example" bms25 (fun _ => rand16)
      "2024").firstId = some "https://d.example/u/alice/outbox?page=1" ∧
    (outboxRoute "alice" (some "2") "alice" "d.example" bms25 (fun _ => rand16)
      "2024").nextLink = some "https://d.example/u/alice/outbox?page=2" :=
  ⟨rfl, rfl, rfl⟩

/-- C4 counterexample: with 25 stored bookmarks the outbox's top-level
`totalItems` is 25 while `first.totalItems` is 20 — the claimed equality
of the two fields fails for the outbox. -/
theorem outbox_totalItems_mismatch :
    (outboxRoute "alice" none "alice" "d.example" bms25 (fun _ => rand16)
      "2024").topTotal = some 25 ∧
    (outboxRoute "alice" none "alice" "d.example" bms25 (fun _ => rand16)
      "2024").firstTotal = some 20 ∧
    (outboxRoute "alice" none "alice" "d.example" bms25 (fun _ => rand16)
      "2024").topTotal ≠
      (outboxRoute "alice" none "alice" "d.example" bms25 (fun _ => rand16)
        "2024").firstTotal :=
  ⟨rfl, rfl, by decide⟩

/-- C4 as amended: for followers and following the two `totalItems`
fields always agree; for the outbox `orderedItems.length` equals
`first.totalItems` and is bounded by the page size 20 and by the
top-level `totalItems`, but the top-level `totalItems` (the total
bookmark count) equals `first.totalItems` only when all bookmarks fit on
one page. -/
theorem collection_totalItems_bounds :
    (∀ (name domain : String) (fv : StoredList),
      (followersCollection name domain fv).totalItems =
        (followersCollection name domain fv).first.totalItems) ∧
    (∀ (name domain : String) (fv : StoredList),
      (followingCollection name domain fv).totalItems =
        (followingCollection name domain fv).first.totalItems) ∧
    (∀ (name : String) (queryPage : Option String) (account domain : String)
       (bookmarks : List Bookmark) (rng : Nat → List Nat) (published : String),
      ∃ c, outboxRoute name queryPage account domain bookmarks rng published = .ok c ∧
        c.totalItems = bookmarks.length ∧
        c.first.totalItems = min 20 bookmarks.length ∧
        c.first.orderedItems.length = c.first.totalItems ∧
        c.first.totalItems ≤ 20 ∧ c.first.totalItems ≤ c.totalItems ∧
        (c.totalItems = c.first.totalItems ↔ c.totalItems ≤ 20)) := by
  refine ⟨fun name domain fv => rfl, fun name domain fv => rfl, ?_⟩
  intro name queryPage account domain bookmarks rng published
  unfold outboxRoute outboxHandler
  refine ⟨_, rfl, rfl, ?_, rfl, ?_, ?_, ?_⟩
  all_goals simp [getBookmarks, List.length_mapIdx, List.length_take, List.length_drop]

/-- C5: with a private key on record and a signer that succeeds, the
POST issued by `signAndSend` carries exactly the Host, Date, Digest,
Signature, Content-Type and Accept headers and the serialized activity
as body; the signature header has exactly the spec's `keyId=...` shape,
and the signed string is exactly the spec's newline-joined four lines
with the inbox path recovered from the inbox URL. -/
theorem signAndSend_request_format
    (message name domain targetDomain inboxPath key date : String)
    (sha256b64 : String → String) (sigOf : String → String → String)
    (fetchResult : Except String String) :
    signAndSend message name domain targetDomain
      ("https://" ++ targetDomain ++ inboxPath) (some key) sha256b64
      (fun k s => .ok (sigOf k s)) fetchResult date =
    .ok (some
      { url := "https://" ++ targetDomain ++ inboxPath
        method := "POST"
        host := targetDomain
        date := date
        digest := "SHA-256=" ++ sha256b64 message
        signature := specSignatureHeader domain name
          (sigOf key (specSigningString inboxPath targetDomain date (sha256b64 message)))
        contentType := "application/json"
        accept := "application/json"
        body := message }) := by
  unfold signAndSend
  rw [jsReplaceFirst_append ("https://" ++ targetDomain) inboxPath]
  simp only [← specSigningString_eq, specSignatureHeader]

/-- C6: the claim states an unfollow against a target with a persisted
matching Follow yields `{type: Undo, object: <that Follow record>}`. The
code finds the Follow (the result is an Undo, not null), but its
`object` is JS `undefined`: the source reads `.message` off the array
returned by `slice(-1)` instead of off its element. With no matching
Follow the result is null without an exception, as claimed. -/
theorem unfollow_undo_object_undefined :
    (createUnfollowMessage "alice" "mydomain.example" followTarget unfollowDb
      rand16).map (fun u => u.type) = some "Undo" ∧
    (createUnfollowMessage "alice" "mydomain.example" followTarget unfollowDb
      rand16).map (fun u => u.object) = some JsVal.undef ∧
    createUnfollowMessage "alice" "mydomain.example" followTarget emptyDb rand16 = none :=
  ⟨by decide, by decide, rfl⟩

/-- C7 counterexample: with a present-but-empty follower list the
broadcast performs no delivery, but it is not a no-op: the no-followers
no-op log is skipped — the single log emitted is the unconditional
`sending this message to all followers: ...` line — and the store gains
a message row (the Create is still built and persisted). -/
theorem broadcast_empty_followers_mutates_store :
    (broadcastMessage bmScenario1 "create" emptyFollowersDb "alice" "mydomain.example"
      false actorMatchesUsername rand16 rand16 "2024").2.2.1 = [] ∧
    (broadcastMessage bmScenario1 "create" emptyFollowersDb "alice" "mydomain.example"
      false actorMatchesUsername rand16 rand16 "2024").2.2.2.length = 1 ∧
    ("sending this message to all followers: ").data.isPrefixOf
      (((broadcastMessage bmScenario1 "create" emptyFollowersDb "alice" "mydomain.example"
        false actorMatchesUsername rand16 rand16 "2024").2.2.2.headD "").data) = true ∧
    ("No followers for account ").data.isPrefixOf
      (((broadcastMessage bmScenario1 "create" emptyFollowersDb "alice" "mydomain.example"
        false actorMatchesUsername rand16 rand16 "2024").2.2.2.headD "").data) = false ∧
    (broadcastMessage bmScenario1 "create" emptyFollowersDb "alice" "mydomain.example"
      false actorMatchesUsername rand16 rand16 "2024").1.messages.length = 1 ∧
    emptyFollowersDb.messages.length = 0 ∧
    (broadcastMessage bmScenario1 "create" emptyFollowersDb "alice" "mydomain.example"
      false actorMatchesUsername rand16 rand16 "2024").1 ≠ emptyFollowersDb := by
  refine ⟨rfl, rfl, by decide, by decide, rfl, rfl, fun h => ?_⟩
  have h2 := congrArg (fun d => d.messages.length) h
  simp only at h2
  exact absurd h2 (by decide)

/-- C7 as amended: a null/absent stored follower value makes the
broadcast a logged no-op (store unchanged, no activity, no delivery);
a present-but-empty follower list yields no deliveries, though the
activity is still built and logged with the unconditional
`sending this message to all followers` line, and for create the store
is still mutated — see the counterexample. -/
theorem broadcast_without_followers :
    (∀ (bm : Bookmark) (action : String) (db : ApDb) (account domain : String)
       (amu : String → Option String → Bool) (nr cr : List Nat) (pub : String),
      db.followers = none →
      broadcastMessage bm action db account domain false amu nr cr pub =
        (db, none, [], ["No followers for account " ++ account ++ "@" ++ domain])) ∧
    (∀ (bm : Bookmark) (action : String) (db : ApDb) (account domain : String)
       (amu : String → Option String → Bool) (nr cr : List Nat) (pub : String),
      db.followers = some [] →
      (broadcastMessage bm action db account domain false amu nr cr pub).2.2.1 = []) := by
  constructor
  · intro bm action db account domain amu nr cr pub h
    unfold broadcastMessage ApDb.getFollowers
    rw [h]
    rfl
  · intro bm action db account domain amu nr cr pub h
    unfold broadcastMessage ApDb.getFollowers
    rw [h]
    by_cases h1 : action = "create"
    · simp [h1]
    · by_cases h2 : action = "update"
      · simp [h1, h2]
      · by_cases h3 : action = "delete"
        · simp [h1, h2, h3]
        · simp [h1, h2, h3]

/-- Witness for C7: both parts of `broadcast_without_followers` applied
at concrete stores. -/
theorem broadcast_without_followers_witness :
    broadcastMessage bmScenario1 "create" emptyDb "alice" "mydomain.example" false
      actorMatchesUsername rand16 rand16 "2024" =
      (emptyDb, none, [], ["No followers for account alice@mydomain.example"]) ∧
    (broadcastMessage bmScenario1 "create" emptyFollowersDb "alice" "mydomain.example"
      false actorMatchesUsername rand16 rand16 "2024").2.2.1 = [] :=
  ⟨broadcast_without_followers.1 bmScenario1 "create" emptyDb "alice" "mydomain.example"
      actorMatchesUsername rand16 rand16 "2024" rfl,
   broadcast_without_followers.2 bmScenario1 "create" emptyFollowersDb "alice"
      "mydomain.example" actorMatchesUsername rand16 rand16 "2024" rfl⟩

/-- C8: for every bookmark, the Note minted from a 16-byte random draw
has an id `https://{domain}/m/{32 lowercase hex chars}`; its content is
an anchor to the bookmark's url whose text is the title, falling back to
the url when the title is blank, followed by the trimmed description
with (only) its first newline turned into `<br/>`; and the `tag` array
has exactly one `{type: "Hashtag", href, name}` entry per space-separated
tag (none when tags are absent). -/
theorem createNote_structure (bookmark : Bookmark) (account domain : String)
    (noteRand : List Nat) (published : String)
    (hlen : noteRand.length = 16) (hbyte : ∀ b ∈ noteRand, b < 256) :
    (∃ g, (createNoteObject bookmark account domain noteRand published).id =
        "https://" ++ domain ++ "/m/" ++ g ∧ g.length = 32 ∧
        g.data.all isLowerHexDigit = true) ∧
    (∃ tail, (createNoteObject bookmark account domain noteRand published).content =
        "<strong><a href=\"" ++ bookmark.url ++
          "\" rel=\"nofollow noopener noreferrer\" target=\"_blank\">" ++
          (if bookmark.title.trim = "" then bookmark.url else bookmark.title) ++
          "</a></strong><br/>" ++ tail ∧
        tail = (match bookmark.description with
                | none => ""
                | some d => jsReplaceFirst d.trim "\n" "<br/>")) ∧
    (∀ t, bookmark.tags = some t →
      (createNoteObject bookmark account domain noteRand published).tag =
        (jsSplit t ' ').map (fun tag =>
          { type := "Hashtag"
            href := "https://" ++ domain ++ "/tagged/" ++ tag.drop 1
            name := tag })) ∧
    (bookmark.tags = none →
      (createNoteObject bookmark account domain noteRand published).tag = []) := by
  have hg := bytesToHex_guid noteRand (by omega) hbyte
  refine ⟨⟨bytesToHex noteRand, rfl, hg.1, hg.2⟩, ?_, ?_, ?_⟩
  · refine ⟨_, ?_, rfl⟩
    unfold createNoteObject replaceEmptyText
    rfl
  · intro t ht
    unfold createNoteObject
    rw [ht]
  · intro ht
    unfold createNoteObject
    rw [ht]

/-- Witness for C8: scenario 1's bookmark (`tags = "#a #b"`) with the
byte draw `0..15` yields exactly the two Hashtag entries `#a`, `#b`. -/
theorem createNote_structure_witness :
    rand16.length = 16 ∧ (∀ b ∈ rand16, b < 256) ∧
    (createNoteObject bmScenario1 "alice" "mydomain.example" rand16 "2024").tag =
      [{ type := "Hashtag", href := "https://mydomain.example/tagged/a", name := "#a" },
       { type := "Hashtag", href := "https://mydomain.example/tagged/b", name := "#b" }] :=
  ⟨by decide, by decide, by
    have h := (createNote_structure bmScenario1 "alice" "mydomain.example" rand16 "2024"
      (by decide) (by decide)).2.2.1 "#a #b" rfl
    rw [h]
    decide⟩

/-- C9 counterexample: a signer that throws makes `signAndSend` itself
fail — the `sign()` call sits outside the `try` block, so a signature
error is not caught and propagates, contrary to the claim. -/
theorem signAndSend_sign_error_propagates :
    signAndSend "msg" "alice" "d.example" "t.example" "https://t.example/inbox"
      (some "key") (fun _ => "HASH") (fun _ _ => .error "sign failure")
      (Except.ok "") "Mon, 01 Jan 2024 00:00:00 GMT" = .error "sign failure" := rfl

/-- C9 as amended: with no private key on record `signAndSend` issues no
request and returns normally (logged), for every hash, signer and
network outcome; and the network outcome never changes the result of the
call — network errors are caught and logged, isolating each recipient.
(A signature error, by contrast, propagates — see the counterexample.) -/
theorem signAndSend_error_isolation :
    (∀ (message name domain targetDomain inbox date : String)
       (sha : String → String) (sign : String → String → Except String String)
       (fetch : Except String String),
      signAndSend message name domain targetDomain inbox none sha sign fetch date = .ok none) ∧
    (∀ (message name domain targetDomain inbox date : String) (pk : Option String)
       (sha : String → String) (sign : String → String → Except String String)
       (f1 f2 : Except String String),
      signAndSend message name domain targetDomain inbox pk sha sign f1 date =
        signAndSend message name domain targetDomain inbox pk sha sign f2 date) := by
  constructor
  · intros; rfl
  · intro message name domain targetDomain inbox date pk sha sign f1 f2
    unfold signAndSend
    cases pk with
    | none => rfl
    | some k => split <;> rfl

/-- C10: `getActor` ignores its name argument (`select actor from
accounts limit 1`); for a stored actor record carrying `followers` and
`outbox` (as every record this code writes does) the served document is
the stored record for every nonempty username; and a not-found response
occurs exactly when the accounts table is empty. -/
theorem actorRoute_name_independent :
    (∀ (n1 n2 : String) (accounts : List AccountRow),
      getActor n1 accounts = getActor n2 accounts) ∧
    (∀ (name domain : String) (accounts : List AccountRow) (a : ActorRecord),
      getActor (name ++ "@" ++ domain) accounts = some a → a.followers ≠ none →
      a.outbox ≠ none → name ≠ "" →
      actorRouteHandler name domain accounts = .okJson a) ∧
    (∀ (name domain : String) (accounts : List AccountRow) (body : String),
      actorRouteHandler name domain accounts = .notFound body → accounts = []) := by
  refine ⟨fun n1 n2 accounts => rfl, ?_, ?_⟩
  · intro name domain accounts a hget hf ho hn
    unfold actorRouteHandler
    rw [if_neg hn]
    simp only [hget]
    rw [if_neg hf, if_neg ho]
  · intro name domain accounts body h
    by_cases hn : name = ""
    · unfold actorRouteHandler at h
      rw [if_pos hn] at h
      exact absurd h (by simp)
    · unfold actorRouteHandler at h
      rw [if_neg hn] at h
      cases hget : getActor (name ++ "@" ++ domain) accounts with
      | none =>
        unfold getActor at hget
        rw [← List.head?_eq_none_iff]
        exact Option.map_eq_none'.mp hget
      | some a =>
        simp only [hget] at h
        revert h
        split <;> simp

/-- Witness for C10: the sample single-account store serves the same
actor document for the usernames `alice` and `bob`, and an empty store
is the only way to get a not-found. -/
theorem actorRoute_name_independent_witness :
    getActor "whatever" sampleAccounts = getActor "other" sampleAccounts ∧
    actorRouteHandler "alice" "d.example" sampleAccounts = .okJson sampleActorRecord ∧
    actorRouteHandler "bob" "d.example" sampleAccounts = .okJson sampleActorRecord ∧
    ([] : List AccountRow) = [] :=
  ⟨actorRoute_name_independent.1 "whatever" "other" sampleAccounts,
   actorRoute_name_independent.2.1 "alice" "d.example" sampleAccounts sampleActorRecord
     rfl (by decide) (by decide) (by decide),
   actorRoute_name_independent.2.1 "bob" "d.example" sampleAccounts sampleActorRecord
     rfl (by decide) (by decide) (by decide),
   actorRoute_name_independent.2.2 "x" "d.example" [] "No actor record found for x@d.example." rfl⟩

end Postmarks
